/-
Verification of the Bima water-service backend (src/index.js and
src/backend/models/Transaction.js): a USSD menu interpreter, a phone
normalizer, a payment-callback normalizer and a transaction ledger.

Strings from the JavaScript source are modelled as `List Char`; `str`
converts a Lean string literal to that representation.  JavaScript's
`Number(...)` coercion on strings (used by `isNaN`, `Number(body.value)`,
`Number(items.Amount)`, ...) is modelled by `jsStrToNumC`, which follows
the ECMAScript StringNumericLiteral grammar: surrounding whitespace is
trimmed, the empty string is 0, signed decimal literals with optional
fraction and exponent are parsed exactly, `Infinity` and the hex/octal/
binary integer forms are recognised, and everything else is NaN.
-/
import Mathlib

set_option linter.unusedVariables false

/-- Convert a Lean string literal to the `List Char` model of JS strings. -/
def str (s : String) : List Char := s.data

/-- Exact decimal number `m * 10 ^ e`.  All constructors in this file build
the canonical form: `m = 0 → e = 0`, and a nonzero `m` is never divisible by
10, so structural equality coincides with numeric equality. -/
structure DecNum where
  m : ℤ
  e : ℤ
deriving DecidableEq, Repr

/-- Strip factors of 10 from `v` into the exponent; `fuel` bounds the number
of steps (any bound at least the number of trailing zeros of `v` is enough). -/
def canonNat (fuel : ℕ) (v : ℕ) (e : ℤ) : ℕ × ℤ :=
  match fuel with
  | 0 => (v, e)
  | f + 1 => if v ≠ 0 ∧ v % 10 = 0 then canonNat f (v / 10) (e + 1) else (v, e)

/-- Build the canonical `DecNum` for `m0 * 10 ^ e0` with `m0 : ℕ`. -/
def mkDecNum (fuel : ℕ) (m0 : ℕ) (e0 : ℤ) : DecNum :=
  let p := canonNat fuel m0 e0
  if p.1 = 0 then ⟨0, 0⟩ else ⟨(p.1 : ℤ), p.2⟩

/-- JS number values: finite (exact decimals), signed infinity, NaN. -/
inductive JNum where
  | fin (d : DecNum)
  | inf (neg : Bool)
  | nan
deriving DecidableEq, Repr

/-- The canonical JS number for an integer, convenient in statements. -/
def jsNumOfInt (n : ℤ) : JNum :=
  .fin (if n < 0 then
          let d := mkDecNum n.natAbs n.natAbs 0
          ⟨-d.m, d.e⟩
        else mkDecNum n.natAbs n.natAbs 0)

/-- Unary minus on JS numbers. -/
def JNum.neg : JNum → JNum
  | .fin d => .fin ⟨-d.m, d.e⟩
  | .inf b => .inf (!b)
  | .nan => .nan

/-- Truthiness of a JS number: 0 and NaN are falsy. -/
def jnumTruthy : JNum → Bool
  | .fin d => decide (d.m ≠ 0)
  | .inf _ => true
  | .nan => false

/-- Whitespace characters trimmed by JS string-to-number coercion. -/
def jsWhitespace (c : Char) : Bool :=
  c = ' ' || c = '\t' || c = '\n' || c = '\r' || c = '\x0b' || c = '\x0c' || c = ' '

/-- Trim leading and trailing JS whitespace. -/
def jsTrim (l : List Char) : List Char :=
  ((l.dropWhile jsWhitespace).reverse.dropWhile jsWhitespace).reverse

/-- Numeric value of a decimal digit character. -/
def decDigitVal (c : Char) : ℕ := c.toNat - '0'.toNat

/-- Value of a decimal digit string. -/
def decDigitsVal (ds : List Char) : ℕ := ds.foldl (fun a c => 10 * a + decDigitVal c) 0

/-- Hexadecimal digit recognizer. -/
def isHexDigitC (c : Char) : Bool :=
  c.isDigit || ('a' ≤ c && c ≤ 'f') || ('A' ≤ c && c ≤ 'F')

/-- Value of a hexadecimal digit character. -/
def hexDigitVal (c : Char) : ℕ :=
  if c.isDigit then decDigitVal c
  else if 'a' ≤ c && c ≤ 'f' then c.toNat - 'a'.toNat + 10
  else c.toNat - 'A'.toNat + 10

/-- Value of a digit string in a given radix. -/
def radixDigitsVal (radix : ℕ) (ds : List Char) : ℕ :=
  ds.foldl (fun a c => radix * a + hexDigitVal c) 0

/-- Octal digit recognizer. -/
def isOctDigitC (c : Char) : Bool := '0' ≤ c && c ≤ '7'

/-- Binary digit recognizer. -/
def isBinDigitC (c : Char) : Bool := c = '0' || c = '1'

/-- Parse the exponent tail after `e`/`E`: optional sign, then digits. -/
def parseExpTail (l : List Char) : Option ℤ :=
  let p : ℤ × List Char :=
    match l with
    | '+' :: r => (1, r)
    | '-' :: r => (-1, r)
    | _ => (1, l)
  if p.2 ≠ [] ∧ p.2.all Char.isDigit then some (p.1 * (decDigitsVal p.2 : ℤ)) else none

/-- Parse an optional exponent part; `none` means a malformed remainder. -/
def parseExp (l : List Char) : Option ℤ :=
  match l with
  | [] => some 0
  | 'e' :: rest => parseExpTail rest
  | 'E' :: rest => parseExpTail rest
  | _ => none

/-- Parse an unsigned decimal literal (or `Infinity`) per the JS grammar.
The value is `digits(ip ++ fp) * 10 ^ (e - |fp|)`, put into canonical form. -/
def parseDecJ (l : List Char) : JNum :=
  if l = str "Infinity" then .inf false
  else
    let ip := l.takeWhile Char.isDigit
    let r1 := l.dropWhile Char.isDigit
    let fp := match r1 with | '.' :: rest => rest.takeWhile Char.isDigit | _ => []
    let r2 := match r1 with | '.' :: rest => rest.dropWhile Char.isDigit | _ => r1
    if ip = [] ∧ fp = [] then .nan
    else
      match parseExp r2 with
      | none => .nan
      | some e =>
          .fin (mkDecNum (ip.length + fp.length) (decDigitsVal (ip ++ fp))
                  (e - (fp.length : ℤ)))

/-- Parse a radix-prefixed integer body (after `0x`/`0o`/`0b`). -/
def parseRadix (radix : ℕ) (ok : Char → Bool) (ds : List Char) : JNum :=
  if ds ≠ [] ∧ ds.all ok then
    .fin (mkDecNum (radixDigitsVal radix ds) (radixDigitsVal radix ds) 0)
  else .nan

/-- JS `Number(s)` coercion for a string `s`, per the StringNumericLiteral grammar. -/
def jsStrToNumC (s : List Char) : JNum :=
  match jsTrim s with
  | [] => .fin ⟨0, 0⟩
  | '+' :: rest => parseDecJ rest
  | '-' :: rest => JNum.neg (parseDecJ rest)
  | '0' :: 'x' :: rest => parseRadix 16 isHexDigitC rest
  | '0' :: 'X' :: rest => parseRadix 16 isHexDigitC rest
  | '0' :: 'o' :: rest => parseRadix 8 isOctDigitC rest
  | '0' :: 'O' :: rest => parseRadix 8 isOctDigitC rest
  | '0' :: 'b' :: rest => parseRadix 2 isBinDigitC rest
  | '0' :: 'B' :: rest => parseRadix 2 isBinDigitC rest
  | l => parseDecJ l

/-- JS `isNaN(s)` for a string argument `s`. -/
def jsIsNaNC (s : List Char) : Bool :=
  match jsStrToNumC s with
  | .nan => true
  | _ => false

/-- JSON-ish JS values appearing in callback payloads. -/
inductive JsVal where
  | vstr (s : String)
  | vnum (n : JNum)
  | vnull
deriving DecidableEq, Repr

/-- JS truthiness of a value: `""`, `0`, `NaN` and `null` are falsy. -/
def jsValTruthy : JsVal → Bool
  | .vstr s => s ≠ ""
  | .vnum n => jnumTruthy n
  | .vnull => false

/-- JS `Number(v)` coercion of a value. -/
def JsVal.toNumber : JsVal → JNum
  | .vstr s => jsStrToNumC s.data
  | .vnum n => n
  | .vnull => .fin ⟨0, 0⟩

/-- JS `Number(x)` where `x` may be `undefined` (modelled as `none`). -/
def jsOptToNumber : Option JsVal → JNum
  | none => .nan
  | some v => v.toNumber

/-- Truthiness of a possibly-undefined value. -/
def jsOptTruthy : Option JsVal → Bool
  | none => false
  | some v => jsValTruthy v

/-- JS `x || null`: keep a truthy value, otherwise `null`. -/
def jsOrNull (o : Option JsVal) : JsVal :=
  match o with
  | some v => if jsValTruthy v then v else .vnull
  | none => .vnull

/-- JS `text.split('*')` on the `List Char` model (the separator is never empty,
so the result is always a non-empty list of segments). -/
def splitStar : List Char → List (List Char)
  | [] => [[]]
  | c :: cs =>
    match splitStar cs with
    | [] => [[]]
    | t :: ts => if c = '*' then [] :: t :: ts else (c :: t) :: ts

/-- Phone normalization from `initiateStkPush` (src/index.js lines 104-110):
strip non-digits; if the result does not start with `254` but starts with `0`,
replace the leading `0` with `254`. -/
def normalizePhone (phone : List Char) : List Char :=
  let formattedPhone := phone.filter Char.isDigit
  if (str "254").isPrefixOf formattedPhone then formattedPhone
  else if (str "0").isPrefixOf formattedPhone then str "254" ++ formattedPhone.drop 1
  else formattedPhone

/-- Outcome of the awaited `initiateStkPush` call, as seen by the USSD handler:
the gateway answered with an `invoice` object, answered without one, or threw. -/
inductive StkOutcome where
  | ok
  | badShape
  | fail
deriving DecidableEq, Repr

/-- Side effects requested by the USSD interpreter, as data. -/
inductive EffectC where
  | initPayment (phone amount : List Char)
  | sendSms (dest msg : List Char)
deriving DecidableEq, Repr

/-- Core of the `/ussd` handler (src/index.js lines 194-250): from the
subscriber's phone, the accumulated dial string and the gateway outcome,
compute the `response` string, the `smsToSend`/`smsMessage` pair for the
issue-report alert, and the payment-initiation attempt as an effect. -/
def interpretCore (phoneNumber text : List Char) (stk : StkOutcome) :
    List Char × Option (List Char) × List Char × List EffectC :=
  let textArray := splitStar text
  if text = [] then
    (str "CON Welcome to Bima.\n1. Meter Reading\n2. Pay Water Bill\n3. Report Issue\n0. Exit",
     none, [], [])
  else if text = str "1" then
    (str "END Your current water consumption is 12,500 Litres.", none, [], [])
  else if text = str "2" then
    (str "CON Enter amount to pay:", none, [], [])
  else if (str "2*").isPrefixOf text then
    let amount := textArray.getD 1 []
    if amount.isEmpty || jsIsNaNC amount then
      (str "END Invalid amount entered.", none, [], [])
    else
      match stk with
      | .ok =>
          (str "END STK Push initiated. Complete payment on your phone.",
           none, [], [.initPayment phoneNumber amount])
      | .badShape =>
          (str "END Failed to initiate payment. Try again later.",
           none, [], [.initPayment phoneNumber amount])
      | .fail =>
          (str "END Payment request failed. Please try again later.",
           none, [], [.initPayment phoneNumber amount])
  else if text = str "3" then
    (str "CON Which issue are you reporting:\n1. Water outage\n2. Pipe leakage", none, [], [])
  else if (str "3*").isPrefixOf text then
    let issueOption := textArray.getD 1 []
    let issueType :=
      if issueOption = str "1" then str "Water outage"
      else if issueOption = str "2" then str "Pipe leakage"
      else []
    if issueType ≠ [] then
      (str "END Thank you for reporting: " ++ issueType ++ str ". Our team will address it shortly.",
       some phoneNumber,
       str "ALERT: Household " ++ phoneNumber ++ str " reported a \x27" ++ issueType ++
         str "\x27. Please investigate.",
       [])
    else
      (str "END Invalid issue option selected.", none, [], [])
  else if text = str "0" then
    (str "END Thank you for using Bima.", none, [], [])
  else
    (str "END Invalid option selected.", none, [], [])

/-- The USSD interpreter: response plus the business-driven effects
(the payment attempt, and the issue-report SMS which the code sends when
the response is terminal and both `smsToSend` and `smsMessage` are truthy,
src/index.js lines 253-264).  The unconditional end-of-session SMS of
lines 267-278 is a boundary-layer effect and is not part of this list. -/
def interpretC (phoneNumber text : List Char) (stk : StkOutcome) :
    List Char × List EffectC :=
  let c := interpretCore phoneNumber text stk
  (c.1,
   c.2.2.2 ++
     (match c.2.1 with
      | some dest =>
          if (str "END").isPrefixOf c.1 && !dest.isEmpty && !(c.2.2.1).isEmpty then
            [.sendSms dest c.2.2.1]
          else []
      | none => []))

/-- Request body of `POST /ussd`; absent JSON fields are `none`. -/
structure UssdRequest where
  phoneNumber : Option String
  sessionId : Option String
  serviceCode : Option String
  text : Option String
deriving DecidableEq, Repr

/-- HTTP response of the `/ussd` route: a JSON error or a plain-text body. -/
inductive UssdHttpResp where
  | json (status : ℕ)
  | plain (status : ℕ) (body : List Char)
deriving DecidableEq, Repr

/-- The `/ussd` route handler (src/index.js lines 179-281): a falsy
`phoneNumber` is rejected with `400` JSON; otherwise the interpreter's
response is sent as `200` plain text. -/
def handleUssd (req : UssdRequest) (stk : StkOutcome) : UssdHttpResp :=
  match req.phoneNumber with
  | none => .json 400
  | some p =>
      if p = "" then .json 400
      else .plain 200 (interpretC p.data ((req.text.getD "").data) stk).1

/-- Canonical result codes as established by the aggregator branch of the
callback handler (src/index.js line 294): 0 Success, 1 Failed, 2 Pending. -/
def rcSuccess : JNum := .fin ⟨0, 0⟩

/-- Canonical Failed result code (see `rcSuccess`). -/
def rcFailed : JNum := .fin ⟨1, 0⟩

/-- Canonical Pending result code (see `rcSuccess`). -/
def rcPending : JNum := .fin ⟨2, 0⟩

/-- The `invoice` object of an Intasend (payment-aggregator) callback;
absent JSON fields are `none`. -/
structure IntasendInvoice where
  invoice_id : Option JsVal
  intasend_tracking_id : Option JsVal
  state : Option JsVal
  failed_reason : Option JsVal
  value : Option JsVal
  mpesa_reference : Option JsVal
  customer_phone_number : Option JsVal
  updated_at : Option JsVal
deriving DecidableEq, Repr

/-- One entry of the Daraja `CallbackMetadata.Item` array. -/
structure MetaItem where
  Name : Option String
  Value : Option JsVal
deriving DecidableEq, Repr

/-- The `Body.stkCallback` object of a Daraja (carrier-billing) callback. -/
structure StkCallback where
  MerchantRequestID : Option JsVal
  CheckoutRequestID : Option JsVal
  ResultCode : Option JsVal
  ResultDesc : Option JsVal
  CallbackMetadata : Option (List MetaItem)
deriving DecidableEq, Repr

/-- The canonical transaction record built by the callback handler and
persisted by `Transaction.create` (src/index.js lines 327-338). -/
structure CanonicalTx where
  merchantRequestId : Option JsVal
  checkoutRequestId : Option JsVal
  resultCode : JNum
  resultDesc : Option JsVal
  amount : JNum
  mpesaReceiptNumber : Option JsVal
  phoneNumber : Option JsVal
  transactionDate : Option JsVal
  provider : String
deriving DecidableEq, Repr

/-- The natural key of a ledger record per the spec (§3): the pair of
external request identifiers. -/
def naturalKey (tx : CanonicalTx) : Option JsVal × Option JsVal :=
  (tx.merchantRequestId, tx.checkoutRequestId)

/-- The Intasend branch of the callback handler (src/index.js lines 289-300). -/
def normalizeIntasend (body : IntasendInvoice) : CanonicalTx where
  merchantRequestId := body.invoice_id
  checkoutRequestId := body.intasend_tracking_id
  resultCode :=
    if body.state = some (.vstr "COMPLETE") then .fin ⟨0, 0⟩
    else if body.state = some (.vstr "FAILED") then .fin ⟨1, 0⟩
    else .fin ⟨2, 0⟩
  resultDesc :=
    some (match body.failed_reason with
          | some v => if jsValTruthy v then v else .vstr "Success"
          | none => .vstr "Success")
  amount := jsOptToNumber body.value
  mpesaReceiptNumber := body.mpesa_reference
  phoneNumber := body.customer_phone_number
  transactionDate := body.updated_at
  provider := "intasend"

/-- The fold of the metadata item array into a lookup (src/index.js
lines 315-318): later items with the same truthy `Name` overwrite earlier
ones; items with no truthy `Name` are skipped. -/
def foldItems (items : List MetaItem) : String → Option JsVal :=
  items.foldl
    (fun acc it =>
      match it.Name with
      | some n => if n = "" then acc else fun k => if k = n then it.Value else acc k
      | none => acc)
    (fun _ => none)

/-- The Daraja branch of the callback handler (src/index.js lines 303-324). -/
def normalizeDaraja (body : StkCallback) : CanonicalTx :=
  let itemsArray := body.CallbackMetadata.getD []
  let items := foldItems itemsArray
  { merchantRequestId := body.MerchantRequestID
    checkoutRequestId := body.CheckoutRequestID
    resultCode := jsOptToNumber body.ResultCode
    resultDesc := body.ResultDesc
    amount :=
      let a := jsOptToNumber (items "Amount")
      if jnumTruthy a then a else .fin ⟨0, 0⟩
    mpesaReceiptNumber := some (jsOrNull (items "MpesaReceiptNumber"))
    phoneNumber := some (jsOrNull (items "PhoneNumber"))
    transactionDate := some (jsOrNull (items "TransactionDate"))
    provider := "daraja" }

/-- An inbound `/daraja-callback` payload: either it has a truthy `invoice`
object, or it is classified by the presence of `Body.stkCallback`. -/
inductive CallbackPayload where
  | withInvoice (invoice : IntasendInvoice)
  | plain (stkCallback : Option StkCallback)
deriving DecidableEq, Repr

/-- Shape classification and normalization of a callback payload;
`none` is the `Ignored` classification (src/index.js lines 304-307). -/
def normalizeCallback : CallbackPayload → Option CanonicalTx
  | .withInvoice inv => some (normalizeIntasend inv)
  | .plain none => none
  | .plain (some body) => some (normalizeDaraja body)

/-- JSON acknowledgement body of the callback endpoint. -/
inductive AckBody where
  | success
  | ignored
  | errorAck
deriving DecidableEq, Repr

/-- The `/daraja-callback` route handler (src/index.js lines 285-347) against
a ledger modelled as the list of stored records; `writeOk` is whether the
`Transaction.create` insert succeeds (its failure is the caught exception). -/
def handleCallback (db : List CanonicalTx) (p : CallbackPayload) (writeOk : Bool) :
    (ℕ × AckBody) × List CanonicalTx :=
  match normalizeCallback p with
  | none => ((200, .ignored), db)
  | some tx => if writeOk then ((200, .success), db ++ [tx]) else ((200, .errorAck), db)

/-- Following the spec's words (§4.1): the payment amount is "a valid
non-negative number" when it coerces to a finite number that is ≥ 0. -/
def specValidNonNegAmount (a : List Char) : Bool :=
  match jsStrToNumC a with
  | .fin d => decide (0 ≤ d.m)
  | _ => false

lemma splitStar_ne_nil (l : List Char) : splitStar l ≠ [] := by
  cases l with
  | nil => simp [splitStar]
  | cons c cs =>
    simp only [splitStar]
    cases h : splitStar cs with
    | nil => simp
    | cons t ts =>
      by_cases hc : c = '*' <;> simp [hc]

lemma splitStar_nostar (l : List Char) (h : '*' ∉ l) : splitStar l = [l] := by
  induction l with
  | nil => rfl
  | cons c cs ih =>
    have hc : c ≠ '*' := fun hcc => h (hcc ▸ List.mem_cons_self c cs)
    have hcs : '*' ∉ cs := fun hm => h (List.mem_cons_of_mem c hm)
    simp only [splitStar, ih hcs]
    simp [hc]

lemma splitStar_head_star (c : Char) (hc : c ≠ '*') (a : List Char) (ha : '*' ∉ a) :
    splitStar (c :: '*' :: a) = [[c], a] := by
  simp only [splitStar, splitStar_nostar a ha]
  simp [hc]

lemma interpretCore_con_or_end (phone text : List Char) (stk : StkOutcome) :
    (str "CON ") <+: (interpretCore phone text stk).1 ∨
    (str "END ") <+: (interpretCore phone text stk).1 := by
  unfold interpretCore
  repeat' split
  all_goals try dsimp only
  all_goals repeat' split
  all_goals try dsimp only
  all_goals first
    | (left; decide)
    | (right; decide)

lemma interpretC_response_eq (phone text : List Char) (stk : StkOutcome) :
    (interpretC phone text stk).1 = (interpretCore phone text stk).1 := by
  simp [interpretC]

lemma prefix_target_ne_nil {p r : List Char} (hp : p ≠ []) (h : p <+: r) : r ≠ [] := by
  intro hr
  subst hr
  exact hp (List.prefix_nil.mp h)

lemma str_one : str "1" = ['1'] := rfl
lemma str_two : str "2" = ['2'] := rfl
lemma str_three : str "3" = ['3'] := rfl
lemma str_zero : str "0" = ['0'] := rfl
lemma str_2star : str "2*" = ['2', '*'] := rfl
lemma str_3star : str "3*" = ['3', '*'] := rfl

/-- C10: invariant of the USSD handler — for every phone number, dial string
and gateway outcome, the computed response string is non-empty and starts
with `CON ` or `END `. -/
theorem ussd_response_tagged_con_or_end (phone text : List Char) (stk : StkOutcome) :
    (interpretC phone text stk).1 ≠ [] ∧
    ((str "CON ") <+: (interpretC phone text stk).1 ∨
     (str "END ") <+: (interpretC phone text stk).1) := by
  rw [interpretC_response_eq]
  refine ⟨?_, interpretCore_con_or_end phone text stk⟩
  rcases interpretCore_con_or_end phone text stk with h | h
  · exact prefix_target_ne_nil (by decide) h
  · exact prefix_target_ne_nil (by decide) h

/-- C8 counterexample: a `/ussd` request body with no `phoneNumber` is answered
with a `400` JSON error, not a `200` plain-text `CON`/`END` body. -/
theorem ussd_missing_phone_returns_400 :
    handleUssd { phoneNumber := none, sessionId := none, serviceCode := none,
                 text := some "" } .ok = .json 400 ∧
    (400 : ℕ) ≠ 200 := by decide

/-- C8 (amended): for every request body carrying a truthy `phoneNumber`, the
`/ussd` route responds `200` with a plain-text body starting with `CON ` or
`END `; a missing or empty `phoneNumber` is instead rejected with `400` JSON. -/
theorem ussd_http_response_ok_and_tagged (req : UssdRequest) (p : String)
    (stk : StkOutcome) (hp : req.phoneNumber = some p) (hne : p ≠ "") :
    handleUssd req stk = .plain 200 (interpretC p.data ((req.text.getD "").data) stk).1 ∧
    ((str "CON ") <+: (interpretC p.data ((req.text.getD "").data) stk).1 ∨
     (str "END ") <+: (interpretC p.data ((req.text.getD "").data) stk).1) := by
  constructor
  · simp [handleUssd, hp, hne]
  · rw [interpretC_response_eq]
    exact interpretCore_con_or_end _ _ _

theorem ussd_http_response_ok_and_tagged_witness :
    handleUssd { phoneNumber := some "0712345678", sessionId := none,
                 serviceCode := none, text := some "" } .ok =
      .plain 200 (interpretC (String.data "0712345678") (String.data "") .ok).1 :=
  (ussd_http_response_ok_and_tagged
    { phoneNumber := some "0712345678", sessionId := none,
      serviceCode := none, text := some "" } "0712345678" .ok rfl (by decide)).1

/-- C9 counterexample: the three-token dial string `2*50*99` matches none of
the listed menu rows, yet the handler treats it as a payment for `50` instead
of answering `END Invalid option selected.` with no effects. -/
theorem ussd_extra_tokens_not_invalid_option :
    (interpretC (str "0712345678") (str "2*50*99") .ok).2 =
      [.initPayment (str "0712345678") (str "50")] ∧
    (interpretC (str "0712345678") (str "2*50*99") .ok).1 ≠
      str "END Invalid option selected." := by decide

/-- C9 (amended): for every dial string that is none of `""`, `"1"`, `"2"`,
`"3"`, `"0"` and does not start with `2*` or `3*`, the interpreter answers
`END Invalid option selected.` and emits no effects.  (Dial strings starting
with `2*` or `3*` fall into the payment/report branches even with extra
tokens, using the second token only.) -/
theorem ussd_catch_all_invalid_option (phone text : List Char) (stk : StkOutcome)
    (h0 : text ≠ []) (h1 : text ≠ str "1") (h2 : text ≠ str "2")
    (h2s : (str "2*").isPrefixOf text = false)
    (h3 : text ≠ str "3") (h3s : (str "3*").isPrefixOf text = false)
    (hz : text ≠ str "0") :
    interpretC phone text stk = (str "END Invalid option selected.", []) := by
  simp [interpretC, interpretCore, h0, h1, h2, h2s, h3, h3s, hz]

theorem ussd_catch_all_invalid_option_witness :
    interpretC (str "07") (str "4") .ok = (str "END Invalid option selected.", []) :=
  ussd_catch_all_invalid_option (str "07") (str "4") .ok (by decide) (by decide)
    (by decide) (by decide) (by decide) (by decide) (by decide)

/-- C1 counterexample: `-5` is not a valid non-negative number, yet the
dial string `2*-5` passes the `!amount || isNaN(amount)` check (JS
`isNaN("-5")` is false) and initiates a payment instead of answering
`END Invalid amount entered.`. -/
theorem ussd_negative_amount_initiates_payment :
    specValidNonNegAmount (str "-5") = false ∧
    (interpretC (str "0712345678") (str "2*-5") .ok).2 =
      [.initPayment (str "0712345678") (str "-5")] ∧
    (interpretC (str "0712345678") (str "2*-5") .ok).1 ≠
      str "END Invalid amount entered." := by decide

/-- C1 (amended): for every dial string with token sequence `["2", amount]`,
if `amount` is empty or not numeric under JS coercion the interpreter answers
`END Invalid amount entered.` and emits no effect; otherwise — including
negative numeric strings — it emits exactly one `InitiatePayment` effect
carrying that amount, the response is terminal, and when the gateway accepts,
the response announces initiation only (`STK Push initiated. Complete payment
on your phone.`). -/
theorem ussd_payment_amount_branch (phone amount : List Char) (stk : StkOutcome)
    (ha : '*' ∉ amount) :
    ((amount.isEmpty || jsIsNaNC amount) = true →
       interpretC phone ('2' :: '*' :: amount) stk =
         (str "END Invalid amount entered.", [])) ∧
    ((amount.isEmpty || jsIsNaNC amount) = false →
       (interpretC phone ('2' :: '*' :: amount) stk).2 = [.initPayment phone amount] ∧
       (str "END ") <+: (interpretC phone ('2' :: '*' :: amount) stk).1 ∧
       (stk = .ok →
         (interpretC phone ('2' :: '*' :: amount) stk).1 =
           str "END STK Push initiated. Complete payment on your phone.")) := by
  have hsplit : splitStar ('2' :: '*' :: amount) = [['2'], amount] :=
    splitStar_head_star '2' (by decide) amount ha
  constructor
  · intro hbad
    simp [interpretC, interpretCore, hsplit, hbad, str_one, str_two, str_three,
          str_zero, str_2star, str_3star]
  · intro hgood
    cases stk <;>
      simp [interpretC, interpretCore, hsplit, hgood, str_one, str_two, str_three,
            str_zero, str_2star, str_3star] <;> decide

theorem ussd_payment_amount_branch_witness :
    (interpretC (str "0712345678") ('2' :: '*' :: str "100") .ok).2 =
      [.initPayment (str "0712345678") (str "100")] :=
  ((ussd_payment_amount_branch (str "0712345678") (str "100") .ok
      (by decide)).2 (by decide)).1

/-- C2 counterexample: the issue-report SMS is addressed to the reporting
subscriber's own phone number — two different reporters get two different
recipients — so it is not sent to a fixed operations alias. -/
theorem ussd_report_sms_goes_to_reporter :
    (interpretC (str "0700000001") (str "3*1") .ok).2 =
      [.sendSms (str "0700000001")
        (str "ALERT: Household 0700000001 reported a \x27Water outage\x27. Please investigate.")] ∧
    (interpretC (str "0700000002") (str "3*1") .ok).2 =
      [.sendSms (str "0700000002")
        (str "ALERT: Household 0700000002 reported a \x27Water outage\x27. Please investigate.")] ∧
    str "0700000001" ≠ str "0700000002" := by decide

/-- C2 (amended): for every dial string with token sequence `["3", option]`,
option `1` or `2` produces a terminal thank-you response and exactly one
`SendSms` effect addressed to the reporting subscriber's own phone number
(not an operations alias) describing the report; any other option produces
`END Invalid issue option selected.` with no effect. -/
theorem ussd_issue_report_branch (phone opt : List Char) (stk : StkOutcome)
    (ho : '*' ∉ opt) :
    (opt = str "1" →
       interpretC phone ('3' :: '*' :: opt) stk =
         (str "END Thank you for reporting: " ++ str "Water outage" ++
            str ". Our team will address it shortly.",
          if phone = [] then []
          else [.sendSms phone
                 (str "ALERT: Household " ++ phone ++ str " reported a \x27" ++
                  str "Water outage" ++ str "\x27. Please investigate.")])) ∧
    (opt = str "2" →
       interpretC phone ('3' :: '*' :: opt) stk =
         (str "END Thank you for reporting: " ++ str "Pipe leakage" ++
            str ". Our team will address it shortly.",
          if phone = [] then []
          else [.sendSms phone
                 (str "ALERT: Household " ++ phone ++ str " reported a \x27" ++
                  str "Pipe leakage" ++ str "\x27. Please investigate.")])) ∧
    (opt ≠ str "1" → opt ≠ str "2" →
       interpretC phone ('3' :: '*' :: opt) stk =
         (str "END Invalid issue option selected.", [])) := by
  have hsplit : splitStar ('3' :: '*' :: opt) = [['3'], opt] :=
    splitStar_head_star '3' (by decide) opt ho
  refine ⟨?_, ?_, ?_⟩
  · intro h1
    rw [h1] at hsplit
    rw [h1]
    by_cases hp : phone = []
    · subst hp
      cases stk <;> decide
    · have hpe : phone.isEmpty = false := by
        cases phone with
        | nil => exact absurd rfl hp
        | cons a l => rfl
      simp [interpretC, interpretCore, splitStar, str, hpe, hp]
  · intro h2
    rw [h2] at hsplit
    rw [h2]
    by_cases hp : phone = []
    · subst hp
      cases stk <;> decide
    · have hpe : phone.isEmpty = false := by
        cases phone with
        | nil => exact absurd rfl hp
        | cons a l => rfl
      simp [interpretC, interpretCore, splitStar, str, hpe, hp]
  · intro h1 h2
    rw [str_one] at h1
    rw [str_two] at h2
    simp [interpretC, interpretCore, hsplit, h1, h2, str_one, str_two, str_three,
          str_zero, str_2star, str_3star]

theorem ussd_issue_report_branch_witness :
    interpretC (str "0712345678") ('3' :: '*' :: str "1") .ok =
      (str "END Thank you for reporting: " ++ str "Water outage" ++
         str ". Our team will address it shortly.",
       if str "0712345678" = ([] : List Char) then []
       else [.sendSms (str "0712345678")
              (str "ALERT: Household " ++ str "0712345678" ++ str " reported a \x27" ++
               str "Water outage" ++ str "\x27. Please investigate.")]) :=
  (ussd_issue_report_branch (str "0712345678") (str "1") .ok (by decide)).1 rfl

lemma normalizePhone_eq (s : List Char) :
    normalizePhone s =
      if (str "254").isPrefixOf (s.filter Char.isDigit) = true then s.filter Char.isDigit
      else if (str "0").isPrefixOf (s.filter Char.isDigit) = true then
        str "254" ++ (s.filter Char.isDigit).drop 1
      else s.filter Char.isDigit := rfl

lemma filter_digits_of_digits (s : List Char) (h : ∀ c ∈ s, c.isDigit) :
    s.filter Char.isDigit = s :=
  List.filter_eq_self.mpr h

lemma filter_digits_idem (s : List Char) :
    (s.filter Char.isDigit).filter Char.isDigit = s.filter Char.isDigit :=
  filter_digits_of_digits _ (fun c hc => List.of_mem_filter hc)

lemma normalizePhone_all_digits (s : List Char) :
    ∀ c ∈ normalizePhone s, c.isDigit := by
  intro c hc
  rw [normalizePhone_eq] at hc
  split at hc
  · exact List.of_mem_filter hc
  · split at hc
    · rcases List.mem_append.mp hc with h | h
      · simp only [str] at h
        rcases List.mem_cons.mp h with h | h
        · subst h; decide
        rcases List.mem_cons.mp h with h | h
        · subst h; decide
        rcases List.mem_cons.mp h with h | h
        · subst h; decide
        · cases h
      · exact List.of_mem_filter ((List.drop_sublist 1 _).mem h)
    · exact List.of_mem_filter hc

lemma normalizePhone_pass_through (s : List Char) (hd : ∀ c ∈ s, c.isDigit)
    (h254 : (str "254").isPrefixOf s = true) : normalizePhone s = s := by
  rw [normalizePhone_eq, filter_digits_of_digits s hd]
  simp [h254]

lemma normalizePhone_top_digits (s : List Char) :
    (str "254").isPrefixOf (normalizePhone s) = true ∨
    (str "0").isPrefixOf (normalizePhone s) = false := by
  rw [normalizePhone_eq]
  split
  · left; assumption
  · split
    · left
      simp [str, List.isPrefixOf]
    · next h1 h2 =>
        right
        exact Bool.eq_false_iff.mpr h2

/-- C3: phone normalization strips non-digits and promotes a trunk `0` to the
`254` country prefix: (i) `0712345678` becomes `254712345678`; (ii) an
all-digit number already starting with `254` passes through unchanged;
(iii) the result only depends on the digits of the input; (iv) when the
digits do not start with `254` but start with `0`, that `0` is replaced by
`254`; (v) normalization is idempotent. -/
theorem normalizePhone_spec :
    normalizePhone (str "0712345678") = str "254712345678" ∧
    (∀ s : List Char, (∀ c ∈ s, c.isDigit) → (str "254").isPrefixOf s = true →
       normalizePhone s = s) ∧
    (∀ s : List Char, normalizePhone s = normalizePhone (s.filter Char.isDigit)) ∧
    (∀ s : List Char,
       (str "254").isPrefixOf (s.filter Char.isDigit) = false →
       (str "0").isPrefixOf (s.filter Char.isDigit) = true →
       normalizePhone s = str "254" ++ (s.filter Char.isDigit).drop 1) ∧
    (∀ s : List Char, normalizePhone (normalizePhone s) = normalizePhone s) := by
  refine ⟨by decide, fun s hd h => normalizePhone_pass_through s hd h, ?_, ?_, ?_⟩
  · intro s
    rw [normalizePhone_eq s, normalizePhone_eq (s.filter Char.isDigit), filter_digits_idem]
  · intro s h254 h0
    rw [normalizePhone_eq]
    simp [h254, h0]
  · intro s
    rcases normalizePhone_top_digits s with h | h
    · exact normalizePhone_pass_through _ (normalizePhone_all_digits s) h
    · rw [normalizePhone_eq (normalizePhone s),
          filter_digits_of_digits _ (normalizePhone_all_digits s)]
      by_cases h254 : (str "254").isPrefixOf (normalizePhone s) = true
      · simp [h254]
      · simp [h254, h]

theorem normalizePhone_spec_witness :
    normalizePhone (str "254712345678") = str "254712345678" ∧
    normalizePhone (str "+254 712-345678") =
      normalizePhone ((str "+254 712-345678").filter Char.isDigit) :=
  ⟨normalizePhone_spec.2.1 (str "254712345678") (by decide) (by decide),
   normalizePhone_spec.2.2.1 (str "+254 712-345678")⟩

/-- C4 counterexample: an aggregator payload whose `failed_reason` is present
but empty maps `resultDesc` to the literal `Success`, not to the present
`failed_reason` value — `failed_reason || 'Success'` treats every falsy value
as absent. -/
theorem intasend_empty_failed_reason_maps_to_success :
    (normalizeIntasend
      { invoice_id := none, intasend_tracking_id := none,
        state := some (.vstr "COMPLETE"), failed_reason := some (.vstr ""),
        value := some (.vstr "500"), mpesa_reference := none,
        customer_phone_number := none, updated_at := none }).resultDesc =
      some (.vstr "Success") ∧
    some (JsVal.vstr "Success") ≠ some (JsVal.vstr "") := by decide

/-- C4 (amended): the aggregator branch maps `invoice_id` to
merchantRequestId, `intasend_tracking_id` to checkoutRequestId, state
`COMPLETE`/`FAILED`/other to Success/Failed/Pending, `failed_reason` to
resultDesc when truthy and the literal `Success` when absent or falsy,
`value` (JS-coerced) to amount, `mpesa_reference` to receiptNumber,
`customer_phone_number` to phoneNumber and `updated_at` to transactionDate;
in particular `{invoice: {state: "COMPLETE", value: "500"}}` yields
resultCode Success and amount 500. -/
theorem normalizeIntasend_mapping (inv : IntasendInvoice) :
    (normalizeIntasend inv).merchantRequestId = inv.invoice_id ∧
    (normalizeIntasend inv).checkoutRequestId = inv.intasend_tracking_id ∧
    (inv.state = some (.vstr "COMPLETE") → (normalizeIntasend inv).resultCode = rcSuccess) ∧
    (inv.state = some (.vstr "FAILED") → (normalizeIntasend inv).resultCode = rcFailed) ∧
    (inv.state ≠ some (.vstr "COMPLETE") → inv.state ≠ some (.vstr "FAILED") →
       (normalizeIntasend inv).resultCode = rcPending) ∧
    (∀ v, inv.failed_reason = some v → jsValTruthy v = true →
       (normalizeIntasend inv).resultDesc = some v) ∧
    (jsOptTruthy inv.failed_reason = false →
       (normalizeIntasend inv).resultDesc = some (.vstr "Success")) ∧
    (normalizeIntasend inv).amount = jsOptToNumber inv.value ∧
    (normalizeIntasend inv).mpesaReceiptNumber = inv.mpesa_reference ∧
    (normalizeIntasend inv).phoneNumber = inv.customer_phone_number ∧
    (normalizeIntasend inv).transactionDate = inv.updated_at ∧
    (normalizeIntasend inv).provider = "intasend" ∧
    (normalizeIntasend
      { invoice_id := none, intasend_tracking_id := none,
        state := some (.vstr "COMPLETE"), failed_reason := none,
        value := some (.vstr "500"), mpesa_reference := none,
        customer_phone_number := none, updated_at := none }).resultCode = rcSuccess ∧
    (normalizeIntasend
      { invoice_id := none, intasend_tracking_id := none,
        state := some (.vstr "COMPLETE"), failed_reason := none,
        value := some (.vstr "500"), mpesa_reference := none,
        customer_phone_number := none, updated_at := none }).amount = jsNumOfInt 500 := by
  refine ⟨rfl, rfl, ?_, ?_, ?_, ?_, ?_, rfl, rfl, rfl, rfl, rfl, by decide, by decide⟩
  · intro h
    simp [normalizeIntasend, h, rcSuccess]
  · intro h
    simp [normalizeIntasend, h, rcFailed]
  · intro h1 h2
    simp [normalizeIntasend, h1, h2, rcPending]
  · intro v hv htr
    simp [normalizeIntasend, hv, htr]
  · intro hfr
    cases h : inv.failed_reason with
    | none => simp [normalizeIntasend, h]
    | some v =>
        rw [h] at hfr
        simp only [jsOptTruthy] at hfr
        simp [normalizeIntasend, h, hfr]

theorem normalizeIntasend_mapping_witness :
    (normalizeIntasend
      { invoice_id := none, intasend_tracking_id := none,
        state := some (.vstr "FAILED"), failed_reason := some (.vstr "Insufficient funds"),
        value := none, mpesa_reference := none,
        customer_phone_number := none, updated_at := none }).resultCode = rcFailed ∧
    (normalizeIntasend
      { invoice_id := none, intasend_tracking_id := none,
        state := some (.vstr "FAILED"), failed_reason := some (.vstr "Insufficient funds"),
        value := none, mpesa_reference := none,
        customer_phone_number := none, updated_at := none }).resultDesc =
      some (.vstr "Insufficient funds") :=
  ⟨(normalizeIntasend_mapping _).2.2.2.1 rfl,
   (normalizeIntasend_mapping _).2.2.2.2.2.1 (.vstr "Insufficient funds") rfl (by decide)⟩

/-- C5 counterexample: a carrier-billing callback with nonzero ResultCode
1032 (request cancelled) stores resultCode 1032 verbatim — it is not
canonicalized to the Failed code (1), nor to Success (0) or Pending (2). -/
theorem daraja_nonzero_result_code_not_failed :
    (normalizeDaraja
      { MerchantRequestID := some (.vstr "29115-34620561-1"),
        CheckoutRequestID := some (.vstr "ws_CO_191220191020363925"),
        ResultCode := some (.vnum (jsNumOfInt 1032)),
        ResultDesc := some (.vstr "Request cancelled by user"),
        CallbackMetadata := none }).resultCode = jsNumOfInt 1032 ∧
    jsNumOfInt 1032 ≠ rcFailed ∧
    jsNumOfInt 1032 ≠ rcSuccess ∧
    jsNumOfInt 1032 ≠ rcPending := by decide

/-- C5 (amended): the carrier-billing branch maps MerchantRequestID and
CheckoutRequestID directly, coerces ResultCode to a number and stores it
verbatim (0 means Success; nonzero provider codes are kept as-is, not
collapsed to a single Failed value), folds the CallbackMetadata Item array
into a lookup and pulls Amount, MpesaReceiptNumber, PhoneNumber and
TransactionDate from it, with amount defaulting to 0 and the other three to
null when absent. -/
theorem normalizeDaraja_mapping (body : StkCallback) :
    (normalizeDaraja body).merchantRequestId = body.MerchantRequestID ∧
    (normalizeDaraja body).checkoutRequestId = body.CheckoutRequestID ∧
    (normalizeDaraja body).resultCode = jsOptToNumber body.ResultCode ∧
    (jsOptToNumber body.ResultCode = jsNumOfInt 0 →
       (normalizeDaraja body).resultCode = rcSuccess) ∧
    (normalizeDaraja body).resultDesc = body.ResultDesc ∧
    (body.CallbackMetadata = none →
       (normalizeDaraja body).amount = .fin ⟨0, 0⟩ ∧
       (normalizeDaraja body).mpesaReceiptNumber = some .vnull ∧
       (normalizeDaraja body).phoneNumber = some .vnull ∧
       (normalizeDaraja body).transactionDate = some .vnull) ∧
    (∀ items, body.CallbackMetadata = some items →
       (normalizeDaraja body).amount =
         (if jnumTruthy (jsOptToNumber (foldItems items "Amount")) then
            jsOptToNumber (foldItems items "Amount") else .fin ⟨0, 0⟩) ∧
       (normalizeDaraja body).mpesaReceiptNumber =
         some (jsOrNull (foldItems items "MpesaReceiptNumber")) ∧
       (normalizeDaraja body).phoneNumber = some (jsOrNull (foldItems items "PhoneNumber")) ∧
       (normalizeDaraja body).transactionDate =
         some (jsOrNull (foldItems items "TransactionDate"))) ∧
    (normalizeDaraja
      { MerchantRequestID := some (.vstr "29115-34620561-1"),
        CheckoutRequestID := some (.vstr "ws_CO_191220191020363925"),
        ResultCode := some (.vnum (jsNumOfInt 0)),
        ResultDesc := some (.vstr "The service request is processed successfully."),
        CallbackMetadata := some
          [ { Name := some "Amount", Value := some (.vnum (jsNumOfInt 100)) },
            { Name := some "MpesaReceiptNumber", Value := some (.vstr "NLJ7RT61SV") },
            { Name := some "PhoneNumber", Value := some (.vnum (jsNumOfInt 254712345678)) },
            { Name := some "TransactionDate", Value := some (.vnum (jsNumOfInt 20191219102115)) } ] }) =
      { merchantRequestId := some (.vstr "29115-34620561-1"),
        checkoutRequestId := some (.vstr "ws_CO_191220191020363925"),
        resultCode := rcSuccess,
        resultDesc := some (.vstr "The service request is processed successfully."),
        amount := jsNumOfInt 100,
        mpesaReceiptNumber := some (.vstr "NLJ7RT61SV"),
        phoneNumber := some (.vnum (jsNumOfInt 254712345678)),
        transactionDate := some (.vnum (jsNumOfInt 20191219102115)),
        provider := "daraja" } := by
  refine ⟨rfl, rfl, rfl, ?_, rfl, ?_, ?_, by decide⟩
  · intro h
    show jsOptToNumber body.ResultCode = rcSuccess
    rw [h]
    decide
  · intro h
    refine ⟨?_, ?_, ?_, ?_⟩ <;> simp [normalizeDaraja, h, foldItems, jsOptToNumber, jnumTruthy, jsOrNull]
  · intro items h
    refine ⟨?_, ?_, ?_, ?_⟩ <;> simp [normalizeDaraja, h]

theorem normalizeDaraja_mapping_witness :
    (normalizeDaraja
      { MerchantRequestID := none, CheckoutRequestID := none,
        ResultCode := some (.vstr "0"), ResultDesc := none,
        CallbackMetadata := none }).resultCode = rcSuccess ∧
    (normalizeDaraja
      { MerchantRequestID := none, CheckoutRequestID := none,
        ResultCode := some (.vstr "0"), ResultDesc := none,
        CallbackMetadata := none }).amount = .fin ⟨0, 0⟩ :=
  ⟨(normalizeDaraja_mapping _).2.2.2.1 (by decide),
   ((normalizeDaraja_mapping _).2.2.2.2.2.1 rfl).1⟩

/-- C6: for every inbound payload, ledger state and write outcome, the
callback endpoint answers HTTP 200 with body `success`, `ignored` or `error`
and never a non-2xx status; a payload matching neither provider shape is
acknowledged `ignored` without creating a ledger record, and a ledger write
failure is acknowledged `error` (also creating no record). -/
theorem callback_always_200_ack (db : List CanonicalTx) (p : CallbackPayload) (w : Bool) :
    (handleCallback db p w).1.1 = 200 ∧
    ((handleCallback db p w).1.2 = .success ∨ (handleCallback db p w).1.2 = .ignored ∨
     (handleCallback db p w).1.2 = .errorAck) ∧
    (normalizeCallback p = none →
       (handleCallback db p w).1.2 = .ignored ∧ (handleCallback db p w).2 = db) ∧
    (normalizeCallback p ≠ none → w = false →
       (handleCallback db p w).1.2 = .errorAck ∧ (handleCallback db p w).2 = db) := by
  unfold handleCallback
  cases h : normalizeCallback p with
  | none => simp [h]
  | some tx => cases w <;> simp [h]

theorem callback_always_200_ack_witness :
    (handleCallback [] (.plain none) true).1.1 = 200 ∧
    (handleCallback [] (.plain none) true).1.2 = .ignored ∧
    (handleCallback [] (.plain none) true).2 = [] :=
  ⟨(callback_always_200_ack [] (.plain none) true).1,
   ((callback_always_200_ack [] (.plain none) true).2.2.1 rfl).1,
   ((callback_always_200_ack [] (.plain none) true).2.2.1 rfl).2⟩

/-- C7: the claim states ledger insertion is idempotent on the natural key,
and the spec (§4.4, §8) demands it; but `Transaction.create` always inserts
and neither the handler nor the schema enforces natural-key uniqueness
(src/backend/models/Transaction.js declares no unique index), so submitting
the same aggregator payload twice leaves two records with the same natural
key.  The spec itself flags this in §9 as the corrected contract over
observed behavior, so the code, not the claim, is at fault. -/
theorem callback_retry_duplicates_ledger :
    ((handleCallback
        (handleCallback []
          (.withInvoice
            { invoice_id := some (.vstr "INV-1"),
              intasend_tracking_id := some (.vstr "TRK-1"),
              state := some (.vstr "COMPLETE"), failed_reason := none,
              value := some (.vstr "500"), mpesa_reference := some (.vstr "RCPT1"),
              customer_phone_number := some (.vstr "254712345678"),
              updated_at := some (.vstr "2025-01-01T00:00:00Z") }) true).2
        (.withInvoice
          { invoice_id := some (.vstr "INV-1"),
            intasend_tracking_id := some (.vstr "TRK-1"),
            state := some (.vstr "COMPLETE"), failed_reason := none,
            value := some (.vstr "500"), mpesa_reference := some (.vstr "RCPT1"),
            customer_phone_number := some (.vstr "254712345678"),
            updated_at := some (.vstr "2025-01-01T00:00:00Z") }) true).2.countP
      (fun tx => decide (naturalKey tx = (some (.vstr "INV-1"), some (.vstr "TRK-1"))))) = 2 := by
  decide
